import Mathlib

/-!
Shallow embedding of the event-coordination core of a message-gateway bot
(`src/events.rs`): the shard-readiness barrier in the `ready` handler, the
message-history cache reconciliation in `message_update` / `message_delete`,
the reaction-gated confirm/execute flow in the `message` handler, and the
`before` / `after` command hooks.

External effects (attachment parsing, target resolution, the reaction that
arrives in the collection window, the external execution call, platform
sends) are passed in as explicit environment values; each handler returns
the outbound effects it attempted together with the updated cache state.
-/

namespace Bot

/-- Emoji of a reaction: either a custom guild emoji (id and name, built by
`discordhelpers::build_reaction`) or a plain unicode emoji. -/
inductive ReactionType where
  | custom (id : Nat) (name : String)
  | unicode (s : String)
deriving DecidableEq

/-- A reaction event observed on a message: who reacted and with what emoji. -/
structure Reaction where
  userId : Nat
  emoji : ReactionType
deriving DecidableEq

/-- A message the bot itself sent (the value returned by a successful
`channel_id.send_message` call), as cached in the message cache. -/
structure SentMessage where
  id : Nat
  channelId : Nat
  content : String
deriving DecidableEq

/-- Modelled from the spec: `crate::cache::MessageCache` (the repository's
cache module is outside `src/`) is a concurrent map from a message id to the
last-known bot-sent message, with insert / lookup / remove accessors
(spec section 4.2: `put`, `get`, `remove`). The spec's size-cap eviction is
a tunable, not exercised by any claim, and is not modelled. -/
abbrev MessageCache := List (Nat × SentMessage)

/-- Lookup of a cached message by id (`message_cache.get_mut(&id)` viewed
functionally). -/
def MessageCache.get (c : MessageCache) (id : Nat) : Option SentMessage :=
  (c.find? (fun p => p.1 == id)).map (fun p => p.2)

/-- Removal of a cache entry (`message_cache.remove(&id)`). -/
def MessageCache.remove (c : MessageCache) (id : Nat) : MessageCache :=
  c.filter (fun p => p.1 != id)

/-- Insertion of a cache entry (`message_cache.insert(id, sent)`),
replacing any previous entry for the same id. -/
def MessageCache.insert (c : MessageCache) (id : Nat) (m : SentMessage) : MessageCache :=
  (id, m) :: c.remove id

/-- Modelled from the spec: `crate::managers::stats::StatsManager`'s shard
bookkeeping (outside `src/`). `add_shard` records one more shard's boot-time
guild count; `shard_count` is the number of shards recorded; the boot-vec sum
is the running `cumulative_groups` total of spec section 3. -/
structure StatsManager where
  bootVec : List Nat
deriving DecidableEq

/-- Number of shards that have been recorded ready (`stats.shard_count()`). -/
def StatsManager.shard_count (s : StatsManager) : Nat := s.bootVec.length

/-- Record one shard's boot-time guild count (`stats.add_shard(guild_count)`). -/
def StatsManager.add_shard (s : StatsManager) (guilds : Nat) : StatsManager :=
  ⟨s.bootVec ++ [guilds]⟩

/-- Sum of per-shard boot guild counts (`stats.get_boot_vec_sum()`), the
spec's `cumulative_groups`. -/
def StatsManager.get_boot_vec_sum (s : StatsManager) : Nat := s.bootVec.sum

/-- One shard-ready gateway event as seen by the `ready` handler: the shard's
index (`ctx.shard_id`), its guild count (`ready.guilds.len()`), and the
expected total shard count (`ready.shard.unwrap()[1]`). -/
structure ReadyEvent where
  shardIndex : Nat
  guildCount : Nat
  totalShards : Nat
deriving DecidableEq

/-- The `ready` handler (`src/events.rs` lines 254-274): skip the report when
`shard_count + 1 > total_shards_to_spawn`; otherwise add the shard's guild
count and, when the new count equals the total, invoke `all_shards_ready`.
Returns the updated stats and whether `all_shards_ready` was invoked. -/
def ready (s : StatsManager) (ev : ReadyEvent) : StatsManager × Bool :=
  if s.shard_count + 1 > ev.totalShards then
    (s, false)
  else
    let s' := s.add_shard ev.guildCount
    (s', s'.shard_count == ev.totalShards)

/-- Sequential processing of a list of shard-ready reports through the
`ready` handler, returning the final stats and, per report, whether
`all_shards_ready` fired on it. -/
def processReady (s : StatsManager) : List ReadyEvent → StatsManager × List Bool
  | [] => (s, [])
  | ev :: rest =>
    let r := ready s ev
    let rest' := processReady r.1 rest
    (rest'.1, r.2 :: rest'.2)

/-- An inbound edit notification (`MessageUpdateEvent`): the edited message's
id, and the optionally-present new content and author. -/
structure MessageUpdateEvent where
  id : Nat
  content : Option String
  author : Option Nat
deriving DecidableEq

/-- Modelled from the spec: `discordhelpers::handle_edit` (outside `src/`)
regenerates the cached counterpart of the edited message from the new
content and re-renders it (spec section 4.2); `render` stands for the
rendering collaborator of spec section 6. -/
def handle_edit (render : String → String) (cache : MessageCache) (id : Nat)
    (newContent : String) (_author : Nat) (old : SentMessage) : MessageCache :=
  cache.insert id { old with content := render newContent }

/-- The `message_update` handler (`src/events.rs` lines 62-81): look up the
edited id in the cache; when a cached counterpart exists and the event
carries new content and an author, reconcile via `handle_edit`; otherwise a
silent no-op. -/
def message_update (render : String → String) (cache : MessageCache)
    (ev : MessageUpdateEvent) : MessageCache :=
  match cache.get ev.id with
  | Option.none => cache
  | some old =>
    match ev.content with
    | Option.none => cache
    | some newContent =>
      match ev.author with
      | Option.none => cache
      | some author => handle_edit render cache ev.id newContent author old

/-- The `message_delete` handler (`src/events.rs` lines 143-152): when the
deleted id is cached, request deletion of the tracked bot reply (its result
`deleteOk` is ignored: `if msg.delete(..).is_err() \x7b \x7d`) and remove the
cache entry; otherwise a no-op. Returns the updated cache and, when a
deletion was requested, the id of the bot reply it targeted. -/
def message_delete (deleteOk : Bool) (cache : MessageCache) (id : Nat) :
    MessageCache × Option Nat :=
  match cache.get id with
  | some m =>
    let _ := deleteOk
    (cache.remove id, some m.id)
  | Option.none => (cache, Option.none)

/-- Execution targets resolved by the compiler cache
(`crate::managers::compilation::RequestHandler`). -/
inductive RequestHandler where
  | none
  | wandBox
  | compilerExplorer
deriving DecidableEq

/-- The inbound user message triggering the confirm-gated flow: id, channel,
author, and its attachment list (the handler only inspects emptiness). -/
structure UserMessage where
  id : Nat
  channelId : Nat
  authorId : Nat
  attachments : List String
deriving DecidableEq

/-- One outbound channel send attempted by a handler: target channel, the
message it references via `reference_message` (if any), and whether it is a
failure embed (`build_fail_embed`) rather than a result embed. -/
structure OutboundReply where
  channelId : Nat
  referencesMsg : Option Nat
  isFailureEmbed : Bool
deriving DecidableEq

/-- Environment of external effects for one run of the `message` handler:
the parsed attachment (`get_message_attachment`, `Ok (code, language)` or
failure), target resolution (`cm.resolve_target(shortname_to_qualified(..))`),
the optional `LOGO_EMOJI_ID` / `LOGO_EMOJI_NAME` config pair, whether posting
the marker reaction succeeded, the reactions arriving on the message within
the 30-second collection window, the external execution result
(`handle_request`), and the platform's response to a channel send. -/
structure MessageEnv where
  attachmentParse : Option (String × String)
  resolveTarget : String → RequestHandler
  logoEmoji : Option (Nat × String)
  reactOk : Bool
  windowReactions : List Reaction
  execResult : Except String String
  sendResult : Option SentMessage

/-- The marker reaction (`src/events.rs` lines 204-213): the configured logo
emoji when present, otherwise the unicode computer emoji. -/
def markerReaction (logoEmoji : Option (Nat × String)) : ReactionType :=
  match logoEmoji with
  | some (id, name) => ReactionType.custom id name
  | Option.none => ReactionType.unicode "💻"

/-- The reaction collector (`CollectReaction` with
`filter(move |r| r.emoji.eq(&reaction))`, lines 219-222): the first reaction
in the window whose emoji equals the marker, from any user. -/
def collectMatching (rs : List Reaction) (marker : ReactionType) : Option Reaction :=
  rs.find? (fun r => r.emoji == marker)

/-- Everything one run of the `message` handler did: whether the marker
reaction was successfully posted, whether the collection window was started,
whether reactions were cleared afterwards (`delete_reactions`), whether
`handle_request` was invoked, the channel sends attempted, and the resulting
message cache. -/
structure MessageOutcome where
  reacted : Bool
  armed : Bool
  clearedReactions : Bool
  executed : Bool
  sends : List OutboundReply
  cache : MessageCache

/-- The `message` handler (`src/events.rs` lines 194-252): on a message with
attachments whose content parses and resolves to an execution target, post
the marker reaction (abort on failure), collect a matching reaction for 30
seconds, clear reactions, and if one arrived run `handle_request`; on success
send one reply referencing the triggering message (the send result is
discarded); on failure send a failure embed and, when that send succeeds,
insert the sent reply into the message cache keyed by the triggering
message's id. -/
def message (env : MessageEnv) (cache : MessageCache) (m : UserMessage) : MessageOutcome :=
  if m.attachments.isEmpty then
    ⟨false, false, false, false, [], cache⟩
  else
    match env.attachmentParse with
    | Option.none => ⟨false, false, false, false, [], cache⟩
    | some (_code, language) =>
      if env.resolveTarget language = RequestHandler.none then
        ⟨false, false, false, false, [], cache⟩
      else
        if !env.reactOk then
          ⟨false, false, false, false, [], cache⟩
        else
          let reaction := markerReaction env.logoEmoji
          match collectMatching env.windowReactions reaction with
          | Option.none => ⟨true, true, true, false, [], cache⟩
          | some _ =>
            match env.execResult with
            | Except.ok _emb =>
              ⟨true, true, true, true, [⟨m.channelId, some m.id, false⟩], cache⟩
            | Except.error _e =>
              match env.sendResult with
              | some sent =>
                ⟨true, true, true, true, [⟨m.channelId, Option.none, true⟩],
                  cache.insert m.id sent⟩
              | Option.none =>
                ⟨true, true, true, true, [⟨m.channelId, Option.none, true⟩], cache⟩

/-- The blocklist (`crate::cache::BlocklistCache` viewed through its
`contains` accessor used in `before`). -/
structure Blocklist where
  ids : List Nat
deriving DecidableEq

/-- Membership check (`blocklist.contains(id)`). -/
def Blocklist.contains (b : Blocklist) (id : Nat) : Bool := b.ids.contains id

/-- An inbound command message as seen by the hooks: id, channel, author,
originating guild (absent in direct messages), and raw content. -/
structure CommandMessage where
  id : Nat
  channelId : Nat
  authorId : Nat
  guildId : Option Nat
  content : String
deriving DecidableEq

/-- Environment for the `before` hook: whether stats tracking is enabled and
the blocklist contents. -/
structure BeforeEnv where
  shouldTrack : Bool
  blocklist : Blocklist
deriving DecidableEq

/-- Effects of one `before` run: the returned dispatch decision, how many
request-count metrics were posted, and how many denial replies were sent. -/
structure BeforeOutcome where
  proceed : Bool
  requestMetrics : Nat
  denialSends : Nat
deriving DecidableEq

/-- The `before` hook (`src/events.rs` lines 277-319): post a request metric
when tracking is enabled; take the guild id or 0 when absent; when either the
author id or the guild id is blocklisted, send one denial reply and return
`false`, otherwise return `true`. -/
def before (env : BeforeEnv) (msg : CommandMessage) : BeforeOutcome :=
  let requestMetrics := if env.shouldTrack then 1 else 0
  let guild_id := match msg.guildId with
    | some id => id
    | Option.none => 0
  let author_blocklisted := env.blocklist.contains msg.authorId
  let guild_blocklisted := env.blocklist.contains guild_id
  if author_blocklisted || guild_blocklisted then
    ⟨false, requestMetrics, 1⟩
  else
    ⟨true, requestMetrics, 0⟩

/-- Modelled from the spec: the command framework (outside `src/`) dispatches
the command body only when the pre-hook signals proceed (spec section 4.4:
the denial "must short-circuit before the command body runs"). Returns the
pre-hook outcome and whether the body ran. -/
def dispatchCommand (env : BeforeEnv) (msg : CommandMessage) : BeforeOutcome × Bool :=
  let pre := before env msg
  (pre, pre.proceed)

/-- Environment for the `after` hook: whether stats tracking is enabled and
the platform's response to sending the failure reply. -/
structure AfterEnv where
  shouldTrack : Bool
  sendResult : Option SentMessage
deriving DecidableEq

/-- Effects of one `after` run: the resulting cache, how many failure replies
were sent, and the command-executed metric (command name and optional guild
id tag) when one was emitted. -/
structure AfterOutcome where
  cache : MessageCache
  failSends : Nat
  metric : Option (String × Option Nat)
deriving DecidableEq

/-- The `after` hook (`src/events.rs` lines 321-349): on an error outcome,
build a failure embed, send it, and when the send succeeds insert the sent
reply into the message cache keyed by the invoking message's id; then emit a
command-executed metric tagged with the command name and the message's guild
id when stats tracking is enabled. -/
def after (env : AfterEnv) (cache : MessageCache) (msg : CommandMessage)
    (command_name : String) (command_result : Except String Unit) : AfterOutcome :=
  let metric := if env.shouldTrack then some (command_name, msg.guildId) else Option.none
  match command_result with
  | Except.error _e =>
    match env.sendResult with
    | some sent => ⟨cache.insert msg.id sent, 1, metric⟩
    | Option.none => ⟨cache, 1, metric⟩
  | Except.ok _ => ⟨cache, 0, metric⟩

end Bot

namespace Bot

/-- Looking up an id right after inserting it returns the inserted message. -/
theorem MessageCache.get_insert (c : MessageCache) (id : Nat) (m : SentMessage) :
    (c.insert id m).get id = some m := by
  simp [MessageCache.get, MessageCache.insert, List.find?]

/-- Looking up an id right after removing it returns nothing. -/
theorem MessageCache.get_remove (c : MessageCache) (id : Nat) :
    (c.remove id).get id = Option.none := by
  induction c with
  | nil => rfl
  | cons h t ih =>
    by_cases hid : h.1 = id
    · simpa [MessageCache.remove, List.filter_cons, hid] using ih
    · have hbne : (h.1 != id) = true := by simp [bne, hid]
      have hbeq : (h.1 == id) = false := by simp [hid]
      simp only [MessageCache.remove, List.filter_cons, hbne, if_pos] at *
      simp only [MessageCache.get, List.find?, hbeq]
      exact ih

/-- Adding a shard increments the shard count by one. -/
theorem StatsManager.shard_count_add_shard (s : StatsManager) (g : Nat) :
    (s.add_shard g).shard_count = s.shard_count + 1 := by
  simp [StatsManager.add_shard, StatsManager.shard_count]

/-- The flag returned for the j-th report in a run of the `ready` handler is
true exactly when that report is the one lifting the recorded shard count to
the expected total. -/
theorem processReady_flag_iff (T : Nat) :
    ∀ (evs : List ReadyEvent) (s : StatsManager) (j : Nat),
      (∀ ev ∈ evs, ev.totalShards = T) →
      ((processReady s evs).2.getD j false = true ↔
        (j < evs.length ∧ s.shard_count + j + 1 = T)) := by
  intro evs
  induction evs with
  | nil =>
    intro s j _
    simp [processReady]
  | cons ev rest ih =>
    intro s j htot
    have hev : ev.totalShards = T := htot ev (by simp)
    have hrest : ∀ e ∈ rest, e.totalShards = T := fun e he => htot e (by simp [he])
    simp only [processReady, ready, hev]
    by_cases hskip : s.shard_count + 1 > T
    · rw [if_pos hskip]
      cases j with
      | zero =>
        simp only [List.getD_cons_zero, List.length_cons]
        constructor
        · intro h; exact absurd h (by simp)
        · intro h; omega
      | succ j' =>
        simp only [List.getD_cons_succ, List.length_cons]
        rw [ih s j' hrest]
        omega
    · rw [if_neg hskip]
      cases j with
      | zero =>
        simp only [List.getD_cons_zero, List.length_cons,
          StatsManager.shard_count_add_shard, beq_iff_eq]
        omega
      | succ j' =>
        simp only [List.getD_cons_succ, List.length_cons]
        rw [ih (s.add_shard ev.guildCount) j' hrest,
          StatsManager.shard_count_add_shard]
        omega

/-- Once the recorded shard count has reached the expected total, no report
in a subsequent run ever fires the barrier. -/
theorem processReady_fires_zero (T : Nat) :
    ∀ (evs : List ReadyEvent) (s : StatsManager),
      (∀ ev ∈ evs, ev.totalShards = T) → T ≤ s.shard_count →
      (processReady s evs).2.count true = 0 := by
  intro evs
  induction evs with
  | nil => intro s _ _; simp [processReady]
  | cons ev rest ih =>
    intro s htot hs
    have hev : ev.totalShards = T := htot ev (by simp)
    have hrest : ∀ e ∈ rest, e.totalShards = T := fun e he => htot e (by simp [he])
    have hskip : s.shard_count + 1 > ev.totalShards := by omega
    simp only [processReady, ready, if_pos hskip]
    simpa [List.count_cons] using ih s hrest hs

/-- Starting strictly below the expected total, a run long enough to reach
the total fires the barrier on exactly one report. -/
theorem processReady_fires_once (T : Nat) :
    ∀ (evs : List ReadyEvent) (s : StatsManager),
      (∀ ev ∈ evs, ev.totalShards = T) → s.shard_count < T →
      T ≤ s.shard_count + evs.length →
      (processReady s evs).2.count true = 1 := by
  intro evs
  induction evs with
  | nil =>
    intro s _ hlt hle
    simp only [List.length_nil, Nat.add_zero] at hle
    omega
  | cons ev rest ih =>
    intro s htot hlt hle
    have hev : ev.totalShards = T := htot ev (by simp)
    have hrest : ∀ e ∈ rest, e.totalShards = T := fun e he => htot e (by simp [he])
    have hnoskip : ¬ s.shard_count + 1 > ev.totalShards := by omega
    simp only [processReady, ready, if_neg hnoskip]
    by_cases hfire : s.shard_count + 1 = T
    · have hflag : ((s.add_shard ev.guildCount).shard_count == ev.totalShards) = true := by
        simp [StatsManager.shard_count_add_shard, hev, hfire]
      have hzero := processReady_fires_zero T rest (s.add_shard ev.guildCount) hrest
        (by rw [StatsManager.shard_count_add_shard]; omega)
      simp [List.count_cons, hflag, hzero]
    · have hflag : ((s.add_shard ev.guildCount).shard_count == ev.totalShards) = false := by
        simp [StatsManager.shard_count_add_shard, hev]
        omega
      have hone := ih (s.add_shard ev.guildCount) hrest
        (by rw [StatsManager.shard_count_add_shard]; omega)
        (by rw [StatsManager.shard_count_add_shard]; simp only [List.length_cons] at hle; omega)
      simp [List.count_cons, hflag, hone]

/-- The shard count after a run is the initial count plus the number of
reports, capped at the expected total. -/
theorem processReady_shard_count (T : Nat) :
    ∀ (evs : List ReadyEvent) (s : StatsManager),
      (∀ ev ∈ evs, ev.totalShards = T) → s.shard_count ≤ T →
      (processReady s evs).1.shard_count = min (s.shard_count + evs.length) T := by
  intro evs
  induction evs with
  | nil => intro s _ hs; simp [processReady]; omega
  | cons ev rest ih =>
    intro s htot hs
    have hev : ev.totalShards = T := htot ev (by simp)
    have hrest : ∀ e ∈ rest, e.totalShards = T := fun e he => htot e (by simp [he])
    simp only [processReady, ready, hev, List.length_cons]
    by_cases hskip : s.shard_count + 1 > T
    · rw [if_pos hskip]
      have := ih s hrest hs
      rw [this]
      omega
    · rw [if_neg hskip]
      have := ih (s.add_shard ev.guildCount) hrest
        (by rw [StatsManager.shard_count_add_shard]; omega)
      rw [this, StatsManager.shard_count_add_shard]
      omega

end Bot

namespace Bot

/-- C2: for every sequence of shard-ready reports covering
`expected_shard_total` distinct shard indices (all reporting that expected
total), `all_shards_ready` fires for exactly one report, and the report it
fires for is the one that lifts the received-report count to the expected
total (the count is one short of the total before it and equal to the total
after it). -/
theorem C2_barrier_fires_exactly_once (T : Nat) (evs : List ReadyEvent)
    (hT : 0 < T)
    (htot : ∀ ev ∈ evs, ev.totalShards = T)
    (hcov : (evs.map ReadyEvent.shardIndex).dedup.length = T) :
    (processReady ⟨[]⟩ evs).2.count true = 1 ∧
    ∀ j, (processReady ⟨[]⟩ evs).2.getD j false = true →
      (processReady ⟨[]⟩ (evs.take (j + 1))).1.shard_count = T ∧
      (processReady ⟨[]⟩ (evs.take j)).1.shard_count + 1 = T := by
  have hzero : (⟨[]⟩ : StatsManager).shard_count = 0 := rfl
  have hlen : T ≤ evs.length := by
    calc T = (evs.map ReadyEvent.shardIndex).dedup.length := hcov.symm
    _ ≤ (evs.map ReadyEvent.shardIndex).length := (List.dedup_sublist _).length_le
    _ = evs.length := List.length_map _ _
  constructor
  · exact processReady_fires_once T evs ⟨[]⟩ htot (by omega) (by omega)
  · intro j hj
    have hflag := (processReady_flag_iff T evs ⟨[]⟩ j htot).mp hj
    rw [hzero] at hflag
    obtain ⟨hjlen, hjT⟩ := hflag
    have htake1 : ∀ e ∈ evs.take (j + 1), e.totalShards = T :=
      fun e he => htot e ((List.take_sublist _ _).subset he)
    have htake2 : ∀ e ∈ evs.take j, e.totalShards = T :=
      fun e he => htot e ((List.take_sublist _ _).subset he)
    have h1 := processReady_shard_count T (evs.take (j + 1)) ⟨[]⟩ htake1 (by omega)
    have h2 := processReady_shard_count T (evs.take j) ⟨[]⟩ htake2 (by omega)
    rw [List.length_take] at h1 h2
    rw [hzero] at h1 h2
    constructor
    · rw [h1]; omega
    · rw [h2]; omega

/-- C2 witness: three shards with guild counts 10, 5, 7 and expected total 3;
the barrier fires exactly once, on the report completing the count. -/
theorem C2_barrier_fires_exactly_once_witness :
    0 < 3 ∧
    ((processReady ⟨[]⟩ [⟨0, 10, 3⟩, ⟨1, 5, 3⟩, ⟨2, 7, 3⟩]).2.count true = 1 ∧
      ∀ j, (processReady ⟨[]⟩ [⟨0, 10, 3⟩, ⟨1, 5, 3⟩, ⟨2, 7, 3⟩]).2.getD j false = true →
        (processReady ⟨[]⟩ (([⟨0, 10, 3⟩, ⟨1, 5, 3⟩, ⟨2, 7, 3⟩] :
            List ReadyEvent).take (j + 1))).1.shard_count = 3 ∧
        (processReady ⟨[]⟩ (([⟨0, 10, 3⟩, ⟨1, 5, 3⟩, ⟨2, 7, 3⟩] :
            List ReadyEvent).take j)).1.shard_count + 1 = 3) :=
  ⟨by decide,
    C2_barrier_fires_exactly_once 3 [⟨0, 10, 3⟩, ⟨1, 5, 3⟩, ⟨2, 7, 3⟩]
      (by decide) (by decide) (by decide)⟩

/-- C3 counterexample: with an expected total of 2, a second report for the
already-reported shard index 0 is not rejected — it raises the cumulative
group count from 10 to 15 and itself triggers `all_shards_ready` — refuting
the claim that a duplicate-index report never changes `cumulative_groups`
and never triggers the barrier. -/
theorem C3_counterexample :
    (ready ⟨[]⟩ ⟨0, 10, 2⟩).1.get_boot_vec_sum = 10 ∧
    (ready (ready ⟨[]⟩ ⟨0, 10, 2⟩).1 ⟨0, 5, 2⟩).1.get_boot_vec_sum = 15 ∧
    (ready (ready ⟨[]⟩ ⟨0, 10, 2⟩).1 ⟨0, 5, 2⟩).2 = true := by
  decide

/-- C3 amended: the `ready` handler tracks only a received-report count, not
shard indices; the only reports it rejects are those arriving once the count
has already reached the event's expected total, and such a report leaves the
stats (hence `cumulative_groups`) unchanged and does not fire
`all_shards_ready` again. -/
theorem C3_amended_post_barrier_reports_rejected (s : StatsManager)
    (ev : ReadyEvent) (h : ev.totalShards ≤ s.shard_count) :
    ready s ev = (s, false) := by
  have hskip : s.shard_count + 1 > ev.totalShards := by omega
  simp [ready, hskip]

/-- C3 amended witness: with both shards (counts 10 and 5) already recorded
against an expected total of 2, a further report for shard 0 is rejected
unchanged. -/
theorem C3_amended_post_barrier_reports_rejected_witness :
    (⟨0, 7, 2⟩ : ReadyEvent).totalShards ≤ (⟨[10, 5]⟩ : StatsManager).shard_count ∧
    ready ⟨[10, 5]⟩ ⟨0, 7, 2⟩ = (⟨[10, 5]⟩, false) :=
  ⟨by decide, C3_amended_post_barrier_reports_rejected ⟨[10, 5]⟩ ⟨0, 7, 2⟩ (by decide)⟩

end Bot

namespace Bot

/-- A user message with one attachment, used in concrete runs. -/
def sampleMsg : UserMessage := ⟨100, 77, 1, ["main.cpp"]⟩

/-- An environment in which every step of the confirm-gated flow succeeds:
the attachment parses, the language resolves, the marker reaction posts, the
author's matching reaction arrives in the window, execution succeeds, and
the platform send succeeds. -/
def envSuccess : MessageEnv :=
  { attachmentParse := some ("int main()", "cpp")
    resolveTarget := fun _ => RequestHandler.compilerExplorer
    logoEmoji := Option.none
    reactOk := true
    windowReactions := [⟨1, ReactionType.unicode "💻"⟩]
    execResult := Except.ok "result"
    sendResult := some ⟨555, 77, "result"⟩ }

/-- Like `envSuccess`, but the matching reaction comes from user 2, not the
triggering author (user 1). -/
def envOtherUserReacts : MessageEnv :=
  { envSuccess with windowReactions := [⟨2, ReactionType.unicode "💻"⟩] }

/-- Like `envSuccess`, but the only reaction in the window has a
non-matching emoji. -/
def envNoMatchingReaction : MessageEnv :=
  { envSuccess with windowReactions := [⟨1, ReactionType.unicode "👍"⟩] }

/-- Like `envSuccess`, but posting the marker reaction fails. -/
def envReactFails : MessageEnv :=
  { envSuccess with reactOk := false }

/-- Like `envSuccess`, but the external execution call fails. -/
def envExecFails : MessageEnv :=
  { envSuccess with execResult := Except.error "boom" }

/-- C1 counterexample: in a fully successful confirmed run, exactly one
reply referencing the triggering message is sent, but the message cache
stays empty — the success-path reply is never registered into the cache,
refuting the claim's registration part. -/
theorem C1_counterexample :
    (message envSuccess [] sampleMsg).sends = [⟨77, some 100, false⟩] ∧
    (message envSuccess [] sampleMsg).cache = [] := by
  decide

/-- C1 amended: when the external call succeeds after a confirmed session,
exactly one reply is sent, as a reply referencing the triggering message,
and it is not registered into the message cache — the cache is returned
unchanged (only the failure path registers its reply). -/
theorem C1_amended_success_reply_not_cached (env : MessageEnv)
    (cache : MessageCache) (m : UserMessage) (code language emb : String)
    (r : Reaction)
    (hatt : m.attachments.isEmpty = false)
    (hparse : env.attachmentParse = some (code, language))
    (htarget : env.resolveTarget language ≠ RequestHandler.none)
    (hreact : env.reactOk = true)
    (hcollect : collectMatching env.windowReactions (markerReaction env.logoEmoji) = some r)
    (hexec : env.execResult = Except.ok emb) :
    (message env cache m).sends = [⟨m.channelId, some m.id, false⟩] ∧
    (message env cache m).executed = true ∧
    (message env cache m).cache = cache := by
  simp [message, hatt, hparse, htarget, hreact, hcollect, hexec]

/-- C1 amended witness: the fully successful concrete run. -/
theorem C1_amended_success_reply_not_cached_witness :
    envSuccess.reactOk = true ∧
    ((message envSuccess [] sampleMsg).sends = [⟨77, some 100, false⟩] ∧
      (message envSuccess [] sampleMsg).executed = true ∧
      (message envSuccess [] sampleMsg).cache = []) :=
  ⟨rfl, C1_amended_success_reply_not_cached envSuccess [] sampleMsg
    "int main()" "cpp" "result" ⟨1, ReactionType.unicode "💻"⟩
    rfl rfl (by decide) rfl rfl rfl⟩

/-- C4: after inserting a message id into the cache, an edit notification
for that id (carrying new content and an author) leaves the cached snapshot
regenerated from the new content, and a delete notification for that id
leaves a subsequent lookup returning absent. -/
theorem C4_edit_and_delete_reconcile (render : String → String)
    (cache : MessageCache) (id : Nat) (m : SentMessage) (newContent : String)
    (author : Nat) (deleteOk : Bool) :
    (message_update render (cache.insert id m)
        ⟨id, some newContent, some author⟩).get id
      = some { m with content := render newContent } ∧
    (message_delete deleteOk (cache.insert id m) id).1.get id = Option.none := by
  constructor
  · simp [message_update, MessageCache.get_insert, handle_edit]
  · simp only [message_delete, MessageCache.get_insert]
    exact MessageCache.get_remove _ id

/-- C5: the `before` hook returns proceed exactly when neither the author id
nor the guild id (0 when no guild context exists) is blocklisted; when
blocked it sends exactly one denial reply and the command body does not run,
and when not blocked it sends none — regardless of the command's content. -/
theorem C5_before_blocklist_gate (env : BeforeEnv) (msg : CommandMessage) :
    (before env msg).proceed
      = !(env.blocklist.contains msg.authorId
          || env.blocklist.contains (msg.guildId.getD 0)) ∧
    (before env msg).denialSends
      = (if env.blocklist.contains msg.authorId
            || env.blocklist.contains (msg.guildId.getD 0) then 1 else 0) ∧
    (dispatchCommand env msg).2
      = !(env.blocklist.contains msg.authorId
          || env.blocklist.contains (msg.guildId.getD 0)) := by
  have hg : (match msg.guildId with
      | some id => id
      | Option.none => 0) = msg.guildId.getD 0 := by
    cases msg.guildId <;> rfl
  cases hcase : env.blocklist.contains msg.authorId
      || env.blocklist.contains (msg.guildId.getD 0) <;>
    simp [before, dispatchCommand, hg, hcase]

/-- C6: a delete notification for a cached id requests deletion of the
tracked bot reply and removes the cache entry whether or not the platform
deletion succeeds (the result is ignored, never retried); a delete
notification for an uncached id is a no-op. -/
theorem C6_delete_notification_best_effort (cache : MessageCache) (id : Nat) :
    (∀ (deleteOk : Bool) (m : SentMessage), cache.get id = some m →
      message_delete deleteOk cache id = (cache.remove id, some m.id) ∧
      (message_delete deleteOk cache id).1.get id = Option.none) ∧
    (∀ deleteOk : Bool, cache.get id = Option.none →
      message_delete deleteOk cache id = (cache, Option.none)) := by
  constructor
  · intro deleteOk m hm
    constructor
    · simp [message_delete, hm]
    · simp [message_delete, hm, MessageCache.get_remove]
  · intro deleteOk hm
    simp [message_delete, hm]

/-- C6 witness: a cache holding one entry for id 5 whose tracked reply has
id 99; a delete notification whose platform deletion fails still requests
deletion of reply 99 and empties the cache. -/
theorem C6_delete_notification_best_effort_witness :
    message_delete false [(5, ⟨99, 7, "out"⟩)] 5
      = (MessageCache.remove [(5, ⟨99, 7, "out"⟩)] 5, some 99) ∧
    (message_delete false [(5, ⟨99, 7, "out"⟩)] 5).1.get 5 = Option.none :=
  (C6_delete_notification_best_effort [(5, ⟨99, 7, "out"⟩)] 5).1 false
    ⟨99, 7, "out"⟩ rfl

/-- C7 counterexample: the collection window is armed for author 1, the only
reaction in the window is the matching emoji from a different user (user 2) —
so no matching reaction from the same author arrived — yet execution is
invoked and a reply is sent, refuting the claim that such a session expires
with no execution and no outbound messages. The collector filters only on
the emoji, not on the reactor's identity. -/
theorem C7_counterexample :
    (envOtherUserReacts.windowReactions.all
      (fun r => !(r.userId == sampleMsg.authorId))) = true ∧
    (message envOtherUserReacts [] sampleMsg).executed = true ∧
    (message envOtherUserReacts [] sampleMsg).sends ≠ [] := by
  decide

/-- C7 amended: an armed session in whose 30-second window no reaction with
the marker emoji arrives — from any user; the collector filter checks only
the emoji — is discarded silently: execution is never invoked, no message is
sent, and the cache is unchanged. -/
theorem C7_amended_no_matching_reaction_expires (env : MessageEnv)
    (cache : MessageCache) (m : UserMessage) (code language : String)
    (hatt : m.attachments.isEmpty = false)
    (hparse : env.attachmentParse = some (code, language))
    (htarget : env.resolveTarget language ≠ RequestHandler.none)
    (hreact : env.reactOk = true)
    (hnone : ∀ r ∈ env.windowReactions, r.emoji ≠ markerReaction env.logoEmoji) :
    (message env cache m).armed = true ∧
    (message env cache m).executed = false ∧
    (message env cache m).sends = [] ∧
    (message env cache m).cache = cache := by
  have hcoll : collectMatching env.windowReactions (markerReaction env.logoEmoji)
      = Option.none := by
    apply List.find?_eq_none.mpr
    intro r hr
    simpa using hnone r hr
  simp [message, hatt, hparse, htarget, hreact, hcoll]

/-- C7 amended witness: only a non-matching emoji arrives in the window; the
session was armed, nothing executes, nothing is sent. -/
theorem C7_amended_no_matching_reaction_expires_witness :
    envNoMatchingReaction.reactOk = true ∧
    ((message envNoMatchingReaction [] sampleMsg).armed = true ∧
      (message envNoMatchingReaction [] sampleMsg).executed = false ∧
      (message envNoMatchingReaction [] sampleMsg).sends = [] ∧
      (message envNoMatchingReaction [] sampleMsg).cache = []) :=
  ⟨rfl, C7_amended_no_matching_reaction_expires envNoMatchingReaction []
    sampleMsg "int main()" "cpp" rfl rfl (by decide) rfl (by decide)⟩

/-- C9: when posting the marker reaction fails, the handler returns
immediately: the collection window is never armed, execution never happens,
no message is sent, and the cache is unchanged. -/
theorem C9_react_failure_aborts (env : MessageEnv) (cache : MessageCache)
    (m : UserMessage) (code language : String)
    (hatt : m.attachments.isEmpty = false)
    (hparse : env.attachmentParse = some (code, language))
    (htarget : env.resolveTarget language ≠ RequestHandler.none)
    (hreact : env.reactOk = false) :
    message env cache m = ⟨false, false, false, false, [], cache⟩ := by
  simp [message, hatt, hparse, htarget, hreact]

/-- C9 witness: the concrete run in which posting the marker reaction
fails. -/
theorem C9_react_failure_aborts_witness :
    envReactFails.reactOk = false ∧
    message envReactFails [] sampleMsg = ⟨false, false, false, false, [], []⟩ :=
  ⟨rfl, C9_react_failure_aborts envReactFails [] sampleMsg "int main()" "cpp"
    rfl rfl (by decide) rfl⟩

/-- A command message originating from guild 42, used in concrete runs. -/
def cmdMsg : CommandMessage := ⟨200, 77, 1, some 42, ";compile"⟩

/-- C8 counterexample: with stats tracking disabled, a successfully
dispatched command emits no command-executed metric, refuting the claim that
the metric is emitted unconditionally. -/
theorem C8_counterexample :
    (after ⟨false, Option.none⟩ [] cmdMsg "compile" (Except.ok ())).metric
      = Option.none := by
  decide

/-- C8 amended: when stats tracking is enabled, `after` emits the
command-executed metric tagged with the command name and the message's guild
id regardless of the outcome; on an error outcome exactly one failure reply
is sent and, when the send succeeds, the sent reply is registered into the
message cache keyed by the invoking message's id. -/
theorem C8_amended_metric_gated_on_tracking (env : AfterEnv)
    (cache : MessageCache) (msg : CommandMessage) (name : String)
    (res : Except String Unit) (htrack : env.shouldTrack = true) :
    (after env cache msg name res).metric = some (name, msg.guildId) ∧
    (∀ e : String, res = Except.error e →
      (after env cache msg name res).failSends = 1 ∧
      ∀ sent, env.sendResult = some sent →
        (after env cache msg name res).cache.get msg.id = some sent) := by
  constructor
  · cases res with
    | ok _ => simp [after, htrack]
    | error e => cases hs : env.sendResult <;> simp [after, htrack, hs]
  · intro e he
    subst he
    constructor
    · cases hs : env.sendResult <;> simp [after, hs]
    · intro sent hs
      simp [after, hs, MessageCache.get_insert]

/-- C8 amended witness: tracking enabled, an erroring command whose failure
reply send succeeds. -/
theorem C8_amended_metric_gated_on_tracking_witness :
    (⟨true, some ⟨900, 77, "fail"⟩⟩ : AfterEnv).shouldTrack = true ∧
    ((after ⟨true, some ⟨900, 77, "fail"⟩⟩ [] cmdMsg "compile"
        (Except.error "boom")).metric = some ("compile", some 42) ∧
      (∀ e : String, (Except.error "boom" : Except String Unit) = Except.error e →
        (after ⟨true, some ⟨900, 77, "fail"⟩⟩ [] cmdMsg "compile"
            (Except.error "boom")).failSends = 1 ∧
        ∀ sent, (⟨true, some ⟨900, 77, "fail"⟩⟩ : AfterEnv).sendResult = some sent →
          (after ⟨true, some ⟨900, 77, "fail"⟩⟩ [] cmdMsg "compile"
              (Except.error "boom")).cache.get cmdMsg.id = some sent)) :=
  ⟨rfl, C8_amended_metric_gated_on_tracking ⟨true, some ⟨900, 77, "fail"⟩⟩ []
    cmdMsg "compile" (Except.error "boom") rfl⟩

/-- C10: both failure paths key their cache insertion by the triggering user
message's id, storing the bot's sent reply as the value: the `message`
handler's failure path yields `cache.insert m.id sent` and the `after`
hook's error path yields `acache.insert amsg.id sent`; a delete notification
for the user message's id then requests deletion of the tracked reply (by
the reply's own id) and removes the entry, so a subsequent lookup is
absent. -/
theorem C10_failure_paths_key_by_trigger_id (env : MessageEnv)
    (cache : MessageCache) (m : UserMessage) (code language e : String)
    (r : Reaction) (sent : SentMessage) (deleteOk : Bool)
    (hatt : m.attachments.isEmpty = false)
    (hparse : env.attachmentParse = some (code, language))
    (htarget : env.resolveTarget language ≠ RequestHandler.none)
    (hreact : env.reactOk = true)
    (hcollect : collectMatching env.windowReactions (markerReaction env.logoEmoji) = some r)
    (hexec : env.execResult = Except.error e)
    (hsend : env.sendResult = some sent) :
    (message env cache m).cache = cache.insert m.id sent ∧
    (∀ (aenv : AfterEnv) (acache : MessageCache) (amsg : CommandMessage)
        (name e2 : String),
      aenv.sendResult = some sent →
      (after aenv acache amsg name (Except.error e2)).cache
        = acache.insert amsg.id sent) ∧
    message_delete deleteOk (cache.insert m.id sent) m.id
      = ((cache.insert m.id sent).remove m.id, some sent.id) ∧
    ((cache.insert m.id sent).remove m.id).get m.id = Option.none := by
  refine ⟨?_, ?_, ?_, ?_⟩
  · simp [message, hatt, hparse, htarget, hreact, hcollect, hexec, hsend]
  · intro aenv acache amsg name e2 hs
    simp [after, hs]
  · simp [message_delete, MessageCache.get_insert]
  · exact MessageCache.get_remove _ _

/-- C10 witness: a failing execution whose failure reply (id 555) is cached
under the triggering message id 100, then deleted and removed on the delete
notification for id 100. -/
theorem C10_failure_paths_key_by_trigger_id_witness :
    envExecFails.reactOk = true ∧
    ((message envExecFails [] sampleMsg).cache
        = MessageCache.insert [] 100 ⟨555, 77, "result"⟩ ∧
      (∀ (aenv : AfterEnv) (acache : MessageCache) (amsg : CommandMessage)
          (name e2 : String),
        aenv.sendResult = some ⟨555, 77, "result"⟩ →
        (after aenv acache amsg name (Except.error e2)).cache
          = acache.insert amsg.id ⟨555, 77, "result"⟩) ∧
      message_delete true (MessageCache.insert [] 100 ⟨555, 77, "result"⟩) 100
        = ((MessageCache.insert [] 100 ⟨555, 77, "result"⟩).remove 100, some 555) ∧
      ((MessageCache.insert [] 100 ⟨555, 77, "result"⟩).remove 100).get 100
        = Option.none) :=
  ⟨rfl, C10_failure_paths_key_by_trigger_id envExecFails [] sampleMsg
    "int main()" "cpp" "boom" ⟨1, ReactionType.unicode "💻"⟩
    ⟨555, 77, "result"⟩ true rfl rfl (by decide) rfl rfl rfl rfl⟩

end Bot
